import Mathlib

/-!
Evaluation order of `()` and `||` on `Wrapper` (`C++/0922.cpp`)

A shallow embedding of the program `C++/0922.cpp`:

* the class `Wrapper` with its constructor, `operator()` and `operator||`;
* the standard output stream `cout` as the string of characters written so far;
* the objects with automatic storage duration as a list, a reference being an index;
* the function `main`.

Modelling conventions.

* `int` is the 32-bit two's-complement integer type.  Values are carried as `Int`; the one
  arithmetic operation of the program, the product in `operator||`, is reduced into the
  `int` range by `wrapInt`.  Signed overflow has no defined behaviour in C++; the wrap-around
  is the model's choice and every statement about the numeric product names the range
  condition under which it is the mathematical product.
* `cout << int` is the decimal rendering of the default stream flags: an optional minus sign
  followed by the digits without leading zeros.  `endl` writes a newline character.
* The operands of the overloaded `||` are evaluated left operand first, then right operand,
  then the operator function itself, which is the order the header comment of the source file
  documents as the output of the program (`2()`, `3()`, `2||`).
-/

namespace Practice0922

/-! ## The native `int` type -/

/-- Smallest value of the native signed `int`. -/
def INT_MIN : Int := -2147483648

/-- Largest value of the native signed `int`. -/
def INT_MAX : Int := 2147483647

/-- A mathematical integer is representable as an `int`. -/
def inIntRange (x : Int) : Prop := INT_MIN ≤ x ∧ x ≤ INT_MAX

instance (x : Int) : Decidable (inIntRange x) := by
  unfold inIntRange; infer_instance

/-- Reduction of a mathematical integer into the `int` range (two's complement). -/
def wrapInt (x : Int) : Int := (x - INT_MIN) % 4294967296 + INT_MIN

/-! ## Decimal rendering, as done by `cout << int` -/

/-- The character of a decimal digit, `'0' + d`. -/
def digitChar (d : Nat) : Char := Char.ofNat (48 + d)

/-- Digits of `n`, most significant first, pushed in front of `acc`.  The first argument
bounds the number of digits produced; `n + 1` is always enough. -/
def natDigits : Nat → Nat → List Char → List Char
  | 0, _, acc => acc
  | fuel + 1, n, acc =>
    if n / 10 = 0 then digitChar (n % 10) :: acc
    else natDigits fuel (n / 10) (digitChar (n % 10) :: acc)

/-- Decimal digits of a natural number. -/
def renderNat (n : Nat) : List Char := natDigits (n + 1) n []

/-- Decimal rendering of an `int` with the default stream flags. -/
def renderInt : Int → String
  | Int.ofNat n => String.mk (renderNat n)
  | Int.negSucc n => String.mk ('-' :: renderNat (n + 1))

/-! ## Objects and program state -/

/-- The class `Wrapper`: one data member `int val_`. -/
structure Wrapper where
  val_ : Int
deriving DecidableEq

/-- A reference to a `Wrapper` object: its index in the object list of the state. -/
abbrev Ref := Nat

/-- Program state: the characters written to `cout` so far, and the `Wrapper` objects with
automatic storage duration in order of declaration. -/
structure State where
  cout : String
  objs : List Wrapper
deriving DecidableEq

/-- State at program start: nothing written, no object declared. -/
def State.init : State := { cout := "", objs := [] }

/-- The effect of `cout << v` for an `int` value. -/
def putInt (v : Int) (s : State) : State := { s with cout := s.cout ++ renderInt v }

/-- The effect of `cout << t` for a string literal. -/
def putStr (t : String) (s : State) : State := { s with cout := s.cout ++ t }

/-- The effect of `cout << endl`. -/
def endl (s : State) : State := { s with cout := s.cout ++ "\n" }

/-- Constructor `Wrapper(int i): val_(i) {}`: the member is initialised with `i`, the body is
empty. -/
def Wrapper.ctor (i : Int) (s : State) : Wrapper × State := ({ val_ := i }, s)

/-- Member `Wrapper& operator() ()`:
`cout << val_ << "()" << endl; return *this;`.  The result is `none` when `self` refers to
no object. -/
def Wrapper.operatorCall (self : Ref) (s : State) : Option (Ref × State) :=
  match s.objs[self]? with
  | none => none
  | some obj => some (self, endl (putStr "()" (putInt obj.val_ s)))

/-- Member `Wrapper operator||(const Wrapper& other)`:
`cout << val_ << "||" << endl; return Wrapper(this->val_ * other.val_);`.  The result is
returned by value.  It is `none` when `self` or `other` refers to no object. -/
def Wrapper.operatorOr (self other : Ref) (s : State) : Option (Wrapper × State) :=
  match s.objs[self]?, s.objs[other]? with
  | some obj, some oth =>
    some (Wrapper.ctor (wrapInt (obj.val_ * oth.val_))
      (endl (putStr "||" (putInt obj.val_ s))))
  | _, _ => none

/-- A declaration statement `Wrapper w(i);`: the object is constructed and bound to a fresh
reference. -/
def declare (i : Int) (s : State) : Ref × State :=
  let r := Wrapper.ctor i s
  (r.2.objs.length, { r.2 with objs := r.2.objs ++ [r.1] })

/-- The expression statement `w1() || w2();` of `main`: left operand, right operand, then
the operator function on the two results. -/
def exprStmt (w1 w2 : Ref) (s : State) : Option (Wrapper × State) :=
  match Wrapper.operatorCall w1 s with
  | none => none
  | some (l, s1) =>
    match Wrapper.operatorCall w2 s1 with
    | none => none
    | some (r, s2) => Wrapper.operatorOr l r s2

/-- The function `main`: `Wrapper w1(2); Wrapper w2(3); w1() || w2();`, then the implicit
`return 0`.  The result is the exit code and the final state; the two locals stay listed in
the final state, their destruction at the end of `main` writes nothing. -/
def main (s : State) : Option (Int × State) :=
  let d1 := declare 2 s
  let d2 := declare 3 d1.2
  match exprStmt d1.1 d2.1 d2.2 with
  | none => none
  | some (_, s3) => some (0, s3)

/-- The call operation applied `n` times in a chain, `w()()...()`: each call is made on the
reference returned by the previous one.  The result lists the references returned by the
successive calls, first call first. -/
def callChain : Nat → Ref → State → Option (List Ref × State)
  | 0, _, s => some ([], s)
  | n + 1, w, s =>
    match Wrapper.operatorCall w s with
    | none => none
    | some (r, s1) =>
      match callChain n r s1 with
      | none => none
      | some (rs, s2) => some (r :: rs, s2)

/-- The text `t` written `n` times in a row. -/
def repeatText : Nat → String → String
  | 0, _ => ""
  | n + 1, t => t ++ repeatText n t

/-- Value of a digit string read as a decimal number, starting from `v`. -/
def readDigits (v : Nat) (cs : List Char) : Nat :=
  cs.foldl (fun acc c => 10 * acc + (c.toNat - 48)) v

/-! ## Facts about the decimal rendering -/

theorem digitChar_toNat (d : Nat) (h : d < 10) : (digitChar d).toNat = 48 + d := by
  interval_cases d <;> rfl

theorem digitChar_ne_minus (d : Nat) (h : d < 10) : digitChar d ≠ '-' := by
  interval_cases d <;> decide

theorem digitChar_ne_newline (d : Nat) (h : d < 10) : digitChar d ≠ '\n' := by
  interval_cases d <;> decide

theorem readDigits_cons (v : Nat) (c : Char) (cs : List Char) :
    readDigits v (c :: cs) = readDigits (10 * v + (c.toNat - 48)) cs := rfl

/-- Reading back the digits produced for `n` gives `n`, when the bound allows all digits. -/
theorem readDigits_natDigits (fuel : Nat) :
    ∀ (n : Nat) (acc : List Char), n < fuel →
      readDigits 0 (natDigits fuel n acc) = readDigits n acc := by
  induction fuel with
  | zero => intro n acc h; omega
  | succ fuel ih =>
    intro n acc h
    have hd : (digitChar (n % 10)).toNat - 48 = n % 10 := by
      rw [digitChar_toNat _ (Nat.mod_lt _ (by decide))]; omega
    unfold natDigits
    split
    · rename_i h0
      rw [readDigits_cons, hd]
      congr 1
      omega
    · rename_i h0
      rw [ih (n / 10) _ (by omega), readDigits_cons, hd]
      congr 1
      omega

theorem renderNat_injective (m n : Nat) (h : renderNat m = renderNat n) : m = n := by
  have hm := readDigits_natDigits (m + 1) m [] (by omega)
  have hn := readDigits_natDigits (n + 1) n [] (by omega)
  unfold renderNat at h
  rw [h, hn] at hm
  simpa [readDigits] using hm.symm

/-- Every character produced by `natDigits` is a digit character or comes from `acc`. -/
theorem natDigits_forall (p : Char → Prop) (hp : ∀ d, d < 10 → p (digitChar d)) (fuel : Nat) :
    ∀ (n : Nat) (acc : List Char), (∀ c ∈ acc, p c) → ∀ c ∈ natDigits fuel n acc, p c := by
  induction fuel with
  | zero => intro n acc hacc; simpa [natDigits] using hacc
  | succ fuel ih =>
    intro n acc hacc
    have hcons : ∀ c ∈ digitChar (n % 10) :: acc, p c := by
      intro c hc
      rcases List.mem_cons.mp hc with rfl | hc
      · exact hp _ (Nat.mod_lt _ (by decide))
      · exact hacc c hc
    unfold natDigits
    split
    · exact hcons
    · exact ih _ _ hcons

theorem renderNat_ne_minus (n : Nat) : ∀ c ∈ renderNat n, c ≠ '-' :=
  natDigits_forall (fun c => c ≠ '-') digitChar_ne_minus _ _ _ (by simp)

theorem renderNat_ne_newline (n : Nat) : ∀ c ∈ renderNat n, c ≠ '\n' :=
  natDigits_forall (fun c => c ≠ '\n') digitChar_ne_newline _ _ _ (by simp)

/-- Distinct integers have distinct decimal renderings. -/
theorem renderInt_injective (a b : Int) (h : renderInt a = renderInt b) : a = b := by
  cases a with
  | ofNat m =>
    cases b with
    | ofNat n =>
      replace h := congrArg String.data h
      simp only [renderInt] at h
      rw [renderNat_injective m n h]
    | negSucc n =>
      replace h := congrArg String.data h
      simp only [renderInt] at h
      exact absurd rfl (renderNat_ne_minus m '-' (by rw [h]; simp))
  | negSucc m =>
    cases b with
    | ofNat n =>
      replace h := congrArg String.data h
      simp only [renderInt] at h
      exact absurd rfl (renderNat_ne_minus n '-' (by rw [← h]; simp))
    | negSucc n =>
      replace h := congrArg String.data h
      simp only [renderInt, List.cons.injEq, true_and] at h
      have := renderNat_injective _ _ h
      have hmn : m = n := by omega
      rw [hmn]

/-- The decimal rendering of an integer contains no newline character. -/
theorem renderInt_no_newline (a : Int) : '\n' ∉ (renderInt a).data := by
  cases a with
  | ofNat m =>
    intro h
    exact renderNat_ne_newline m _ h rfl
  | negSucc m =>
    intro h
    simp only [renderInt] at h
    rcases List.mem_cons.mp h with h | h
    · exact absurd h (by decide)
    · exact renderNat_ne_newline _ _ h rfl

/-- Appending the same text to two strings gives equal results only for equal strings. -/
theorem String.append_right_cancel (s t u : String) (h : s ++ u = t ++ u) : s = t := by
  have hd := congrArg String.data h
  simp only [String.data_append] at hd
  exact String.ext (List.append_cancel_right hd)

/-- Appending two texts to the same string gives equal results only for equal texts. -/
theorem String.append_left_cancel (s t u : String) (h : u ++ s = u ++ t) : s = t := by
  have hd := congrArg String.data h
  simp only [String.data_append] at hd
  exact String.ext (List.append_cancel_left hd)

/-- The native product of two `int` values is their mathematical product when that product
is representable. -/
theorem wrapInt_of_inIntRange (x : Int) (h : inIntRange x) : wrapInt x = x := by
  unfold inIntRange INT_MIN INT_MAX at h
  unfold wrapInt INT_MIN
  omega

theorem wrapInt_inIntRange (x : Int) : inIntRange (wrapInt x) := by
  unfold inIntRange wrapInt INT_MIN INT_MAX
  omega

/-! ## Facts about the two member functions -/

/-- The three insertions of `operator()` write the value, the marker and a newline. -/
theorem emit_call (v : Int) (s : State) :
    endl (putStr "()" (putInt v s)) = { s with cout := s.cout ++ renderInt v ++ "()\n" } := by
  simp only [endl, putStr, putInt, String.append_assoc]
  rfl

/-- The three insertions of `operator||` write the value, the marker and a newline. -/
theorem emit_or (v : Int) (s : State) :
    endl (putStr "||" (putInt v s)) = { s with cout := s.cout ++ renderInt v ++ "||\n" } := by
  simp only [endl, putStr, putInt, String.append_assoc]
  rfl

theorem operatorCall_eq (s : State) (w : Ref) (v : Int) (h : s.objs[w]? = some ⟨v⟩) :
    Wrapper.operatorCall w s = some (w, { s with cout := s.cout ++ renderInt v ++ "()\n" }) := by
  simp only [Wrapper.operatorCall, h, emit_call]

theorem operatorOr_eq (s : State) (x y : Ref) (a b : Int)
    (hx : s.objs[x]? = some ⟨a⟩) (hy : s.objs[y]? = some ⟨b⟩) :
    Wrapper.operatorOr x y s =
      some (⟨wrapInt (a * b)⟩, { s with cout := s.cout ++ renderInt a ++ "||\n" }) := by
  simp only [Wrapper.operatorOr, hx, hy, emit_or, Wrapper.ctor]

theorem exprStmt_eq (s : State) (w1 w2 : Ref) (a b : Int)
    (h1 : s.objs[w1]? = some ⟨a⟩) (h2 : s.objs[w2]? = some ⟨b⟩) :
    exprStmt w1 w2 s =
      some (⟨wrapInt (a * b)⟩,
        { s with cout := s.cout ++ renderInt a ++ "()\n" ++ renderInt b ++ "()\n"
                          ++ renderInt a ++ "||\n" }) := by
  unfold exprStmt
  rw [operatorCall_eq s w1 a h1]
  simp only
  rw [operatorCall_eq ⟨s.cout ++ renderInt a ++ "()\n", s.objs⟩ w2 b h2]
  simp only
  rw [operatorOr_eq ⟨s.cout ++ renderInt a ++ "()\n" ++ renderInt b ++ "()\n", s.objs⟩
    w1 w2 a b h1 h2]

/-! ## The claims -/

/-- C1: for all integers `a` and `b`, evaluating `w1() || w2()` on wrappers holding `a` and
`b`, starting from an empty output, runs the call on the left operand, then the call on the
right operand, then the combine operation, and the output is exactly the three lines
`a()`, `b()`, `a||` in this order. -/
theorem C1_expr_emits_three_lines (a b : Int) (s : State) (w1 w2 : Ref)
    (h1 : s.objs[w1]? = some ⟨a⟩) (h2 : s.objs[w2]? = some ⟨b⟩) (hout : s.cout = "") :
    Wrapper.operatorCall w1 s = some (w1, ⟨renderInt a ++ "()\n", s.objs⟩) ∧
    Wrapper.operatorCall w2 ⟨renderInt a ++ "()\n", s.objs⟩ =
      some (w2, ⟨renderInt a ++ "()\n" ++ renderInt b ++ "()\n", s.objs⟩) ∧
    Wrapper.operatorOr w1 w2 ⟨renderInt a ++ "()\n" ++ renderInt b ++ "()\n", s.objs⟩ =
      some (⟨wrapInt (a * b)⟩,
        ⟨renderInt a ++ "()\n" ++ renderInt b ++ "()\n" ++ renderInt a ++ "||\n", s.objs⟩) ∧
    exprStmt w1 w2 s =
      some (⟨wrapInt (a * b)⟩,
        ⟨renderInt a ++ "()\n" ++ renderInt b ++ "()\n" ++ renderInt a ++ "||\n", s.objs⟩) := by
  refine ⟨?_, ?_, ?_, ?_⟩
  · rw [operatorCall_eq s w1 a h1, hout, String.empty_append]
  · exact operatorCall_eq ⟨renderInt a ++ "()\n", s.objs⟩ w2 b h2
  · exact operatorOr_eq ⟨renderInt a ++ "()\n" ++ renderInt b ++ "()\n", s.objs⟩ w1 w2 a b h1 h2
  · rw [exprStmt_eq s w1 w2 a b h1 h2, hout, String.empty_append]

theorem C1_expr_emits_three_lines_witness :
    exprStmt 0 1 ⟨"", [⟨7⟩, ⟨-5⟩]⟩ = some (⟨-35⟩, ⟨"7()\n-5()\n7||\n", [⟨7⟩, ⟨-5⟩]⟩) :=
  (C1_expr_emits_three_lines 7 (-5) ⟨"", [⟨7⟩, ⟨-5⟩]⟩ 0 1 rfl rfl rfl).2.2.2

/-- C2: for all integers `a` and `b` whose product is representable as an `int`, the
`Wrapper` returned by the combine operation on wrappers holding `a` and `b` holds `a * b`. -/
theorem C2_or_returns_product (a b : Int) (s : State) (x y : Ref)
    (hx : s.objs[x]? = some ⟨a⟩) (hy : s.objs[y]? = some ⟨b⟩) (hab : inIntRange (a * b)) :
    (Wrapper.operatorOr x y s).map (fun r => r.1.val_) = some (a * b) := by
  rw [operatorOr_eq s x y a b hx hy, wrapInt_of_inIntRange _ hab]
  rfl

theorem C2_or_returns_product_witness :
    inIntRange (46340 * (-46340)) ∧
    (Wrapper.operatorOr 1 0 ⟨"", [⟨-46340⟩, ⟨46340⟩]⟩).map (fun r => r.1.val_)
      = some (46340 * (-46340)) :=
  ⟨by decide, C2_or_returns_product 46340 (-46340) ⟨"", [⟨-46340⟩, ⟨46340⟩]⟩ 1 0 rfl rfl
    (by decide)⟩

/-- C3: `main`, run from the initial state, completes with exit code 0 having written
exactly the three lines `2()`, `3()`, `2||` and nothing else, and the discarded result of
its expression statement holds 6. -/
theorem C3_main_output :
    main State.init = some (0, ⟨"2()\n3()\n2||\n", [⟨2⟩, ⟨3⟩]⟩) ∧
    exprStmt (declare 2 State.init).1 (declare 3 (declare 2 State.init).2).1
        (declare 3 (declare 2 State.init).2).2 =
      some (⟨6⟩, ⟨"2()\n3()\n2||\n", [⟨2⟩, ⟨3⟩]⟩) := by
  constructor <;> decide

/-- C4: for every wrapper `w` holding `v` and every `n` (so for every `n ≥ 1`), `n` calls in
a chain on `w` write the line `v()` exactly `n` times, every call returns the reference `w`
itself, so the calls of the chain are the same calls as `n` successive calls on `w`, and
afterwards `w` holds `v` as before. -/
theorem C4_call_repeated (v : Int) (w : Ref) (n : Nat) (s : State)
    (hw : s.objs[w]? = some ⟨v⟩) :
    callChain n w s =
      some (List.replicate n w,
        { s with cout := s.cout ++ repeatText n (renderInt v ++ "()\n") }) ∧
    ∀ rs s', callChain n w s = some (rs, s') → s'.objs[w]? = some ⟨v⟩ := by
  have key : ∀ (n : Nat) (s : State), s.objs[w]? = some ⟨v⟩ →
      callChain n w s =
        some (List.replicate n w,
          { s with cout := s.cout ++ repeatText n (renderInt v ++ "()\n") }) := by
    intro n
    induction n with
    | zero =>
      intro s _
      simp only [callChain, repeatText, String.append_empty, List.replicate]
    | succ n ih =>
      intro s hs
      unfold callChain
      rw [operatorCall_eq s w v hs]
      simp only
      rw [ih ⟨s.cout ++ renderInt v ++ "()\n", s.objs⟩ hs]
      simp only [repeatText, String.append_assoc, List.replicate]
  refine ⟨key n s hw, ?_⟩
  intro rs s' h
  rw [key n s hw] at h
  simp only [Option.some.injEq, Prod.mk.injEq] at h
  rw [← h.2]
  exact hw

theorem C4_call_repeated_witness :
    callChain 3 0 ⟨"", [⟨42⟩]⟩ = some ([0, 0, 0], ⟨"42()\n42()\n42()\n", [⟨42⟩]⟩) :=
  (C4_call_repeated 42 0 3 ⟨"", [⟨42⟩]⟩ rfl).1

/-- C5: the text written by the combine operation does not depend on the right operand: with
the same left operand holding `a` and right operands holding `b1` and `b2`, both calls
append the same single line `a||` to the output. -/
theorem C5_or_output_independent_of_right (a b1 b2 : Int) (s : State) (x y1 y2 : Ref)
    (hx : s.objs[x]? = some ⟨a⟩) (h1 : s.objs[y1]? = some ⟨b1⟩)
    (h2 : s.objs[y2]? = some ⟨b2⟩) :
    (Wrapper.operatorOr x y1 s).map (fun r => r.2.cout)
      = some (s.cout ++ renderInt a ++ "||\n") ∧
    (Wrapper.operatorOr x y2 s).map (fun r => r.2.cout)
      = some (s.cout ++ renderInt a ++ "||\n") := by
  rw [operatorOr_eq s x y1 a b1 hx h1, operatorOr_eq s x y2 a b2 hx h2]
  exact ⟨rfl, rfl⟩

theorem C5_or_output_independent_of_right_witness :
    (Wrapper.operatorOr 0 1 ⟨"", [⟨9⟩, ⟨4⟩, ⟨-8⟩]⟩).map (fun r => r.2.cout) = some "9||\n" ∧
    (Wrapper.operatorOr 0 2 ⟨"", [⟨9⟩, ⟨4⟩, ⟨-8⟩]⟩).map (fun r => r.2.cout) = some "9||\n" :=
  C5_or_output_independent_of_right 9 4 (-8) ⟨"", [⟨9⟩, ⟨4⟩, ⟨-8⟩]⟩ 0 1 2 rfl rfl rfl

/-- C6: for all `a` and `b`, evaluating `w1() || w2()` on wrappers holding `a` and `b`
succeeds, leaves every declared object as it was, so the left operand still holds `a` and
the right operand still holds `b`, and the `int` product is held by the wrapper returned by
value, which is the mathematical product `a * b` whenever that is representable. -/
theorem C6_operands_not_mutated (a b : Int) (s : State) (w1 w2 : Ref)
    (h1 : s.objs[w1]? = some ⟨a⟩) (h2 : s.objs[w2]? = some ⟨b⟩) :
    (exprStmt w1 w2 s).map (fun r => r.2.objs) = some s.objs ∧
    (exprStmt w1 w2 s).map (fun r => (r.2.objs[w1]?, r.2.objs[w2]?))
      = some (some ⟨a⟩, some ⟨b⟩) ∧
    (exprStmt w1 w2 s).map (fun r => r.1.val_) = some (wrapInt (a * b)) ∧
    (inIntRange (a * b) → (exprStmt w1 w2 s).map (fun r => r.1.val_) = some (a * b)) := by
  rw [exprStmt_eq s w1 w2 a b h1 h2]
  refine ⟨rfl, ?_, rfl, ?_⟩
  · simp only [Option.map_some', h1, h2]
  · intro hab
    simp only [Option.map_some', wrapInt_of_inIntRange _ hab]

theorem C6_operands_not_mutated_witness :
    (exprStmt 1 0 ⟨"", [⟨11⟩, ⟨-3⟩]⟩).map (fun r => r.2.objs) = some [⟨11⟩, ⟨-3⟩] ∧
    (exprStmt 1 0 ⟨"", [⟨11⟩, ⟨-3⟩]⟩).map (fun r => (r.2.objs[1]?, r.2.objs[0]?))
      = some (some ⟨-3⟩, some ⟨11⟩) ∧
    (exprStmt 1 0 ⟨"", [⟨11⟩, ⟨-3⟩]⟩).map (fun r => r.1.val_) = some (-33) :=
  have h := C6_operands_not_mutated (-3) 11 ⟨"", [⟨11⟩, ⟨-3⟩]⟩ 1 0 rfl rfl
  ⟨h.1, h.2.1, h.2.2.1⟩

/-- C7: for every integer `i`, the constructor yields a wrapper whose stored value is `i`
and leaves the state, hence the output, untouched; it is a total function. A declaration
`Wrapper w(i);` binds a fresh reference to an object holding `i`, writes nothing and keeps
the objects declared before. -/
theorem C7_ctor_stores_value (i : Int) (s : State) :
    Wrapper.ctor i s = (⟨i⟩, s) ∧
    (Wrapper.ctor i s).1.val_ = i ∧
    (declare i s).2.cout = s.cout ∧
    (declare i s).2.objs[(declare i s).1]? = some ⟨i⟩ ∧
    (declare i s).2.objs = s.objs ++ [⟨i⟩] := by
  refine ⟨rfl, rfl, rfl, ?_, rfl⟩
  simp [declare, Wrapper.ctor]

/-- C8: for every prior output and all operand values, the call operation appends exactly
one line, `a()`, and the combine operation appends exactly one line, `a||`: the text
before the final newline contains no newline, the previous output is kept as it is in front,
and no declared object changes. -/
theorem C8_one_line_each (a b : Int) (s : State) (x y : Ref)
    (hx : s.objs[x]? = some ⟨a⟩) (hy : s.objs[y]? = some ⟨b⟩) :
    '\n' ∉ (renderInt a ++ "()").data ∧
    Wrapper.operatorCall x s =
      some (x, ⟨s.cout ++ (renderInt a ++ "()") ++ "\n", s.objs⟩) ∧
    '\n' ∉ (renderInt a ++ "||").data ∧
    Wrapper.operatorOr x y s =
      some (⟨wrapInt (a * b)⟩, ⟨s.cout ++ (renderInt a ++ "||") ++ "\n", s.objs⟩) := by
  have hnl := renderInt_no_newline a
  refine ⟨?_, ?_, ?_, ?_⟩
  · simp only [String.data_append, List.mem_append, not_or]
    exact ⟨hnl, by decide⟩
  · rw [operatorCall_eq s x a hx]
    simp only [String.append_assoc]
    rfl
  · simp only [String.data_append, List.mem_append, not_or]
    exact ⟨hnl, by decide⟩
  · rw [operatorOr_eq s x y a b hx hy]
    simp only [String.append_assoc]
    rfl

theorem C8_one_line_each_witness :
    Wrapper.operatorCall 0 ⟨"earlier\n", [⟨-12⟩, ⟨5⟩]⟩ =
      some (0, ⟨"earlier\n-12()\n", [⟨-12⟩, ⟨5⟩]⟩) ∧
    Wrapper.operatorOr 0 1 ⟨"earlier\n", [⟨-12⟩, ⟨5⟩]⟩ =
      some (⟨-60⟩, ⟨"earlier\n-12||\n", [⟨-12⟩, ⟨5⟩]⟩) :=
  have h := C8_one_line_each (-12) 5 ⟨"earlier\n", [⟨-12⟩, ⟨5⟩]⟩ 0 1 rfl rfl
  ⟨h.2.1, h.2.2.2⟩

/-- C9: zero and negative values are written and multiplied as signed decimal integers:
with `a = 0`, `b = 5` the expression writes `0()`, `5()`, `0||` and yields 0; with `a = -1`,
`b = 4` it writes `-1()`, `4()`, `-1||` and yields -4. -/
theorem C9_zero_and_negative :
    exprStmt (declare 0 State.init).1 (declare 5 (declare 0 State.init).2).1
        (declare 5 (declare 0 State.init).2).2 =
      some (⟨0⟩, ⟨"0()\n5()\n0||\n", [⟨0⟩, ⟨5⟩]⟩) ∧
    exprStmt (declare (-1) State.init).1 (declare 4 (declare (-1) State.init).2).1
        (declare 4 (declare (-1) State.init).2).2 =
      some (⟨-4⟩, ⟨"-1()\n4()\n-1||\n", [⟨-1⟩, ⟨4⟩]⟩) := by
  constructor <;> decide

/-- C10: for all `a` and `b` whose product is representable, the combine operation returns
a wrapper holding `a * b` in both operand orders, while the line it writes is `a||` in one
order and `b||` in the other, and these two lines are equal if and only if `a = b`. -/
theorem C10_or_commutes_in_value_only (a b : Int) (s : State) (x y : Ref)
    (hx : s.objs[x]? = some ⟨a⟩) (hy : s.objs[y]? = some ⟨b⟩) (hab : inIntRange (a * b)) :
    Wrapper.operatorOr x y s =
      some (⟨a * b⟩, ⟨s.cout ++ renderInt a ++ "||\n", s.objs⟩) ∧
    Wrapper.operatorOr y x s =
      some (⟨a * b⟩, ⟨s.cout ++ renderInt b ++ "||\n", s.objs⟩) ∧
    (renderInt a ++ "||\n" = renderInt b ++ "||\n" ↔ a = b) ∧
    (s.cout ++ renderInt a ++ "||\n" = s.cout ++ renderInt b ++ "||\n" ↔ a = b) := by
  have hline : renderInt a ++ "||\n" = renderInt b ++ "||\n" ↔ a = b := by
    constructor
    · intro h
      exact renderInt_injective a b (String.append_right_cancel _ _ _ h)
    · intro h
      rw [h]
  refine ⟨?_, ?_, hline, ?_⟩
  · rw [operatorOr_eq s x y a b hx hy, wrapInt_of_inIntRange _ hab]
  · rw [operatorOr_eq s y x b a hy hx, mul_comm b a, wrapInt_of_inIntRange _ hab]
  · rw [String.append_assoc, String.append_assoc]
    constructor
    · intro h
      exact hline.mp (String.append_left_cancel _ _ _ h)
    · intro h
      rw [h]

theorem C10_or_commutes_in_value_only_witness :
    Wrapper.operatorOr 0 1 ⟨"", [⟨2⟩, ⟨3⟩]⟩ = some (⟨6⟩, ⟨"2||\n", [⟨2⟩, ⟨3⟩]⟩) ∧
    Wrapper.operatorOr 1 0 ⟨"", [⟨2⟩, ⟨3⟩]⟩ = some (⟨6⟩, ⟨"3||\n", [⟨2⟩, ⟨3⟩]⟩) :=
  have h := C10_or_commutes_in_value_only 2 3 ⟨"", [⟨2⟩, ⟨3⟩]⟩ 0 1 rfl rfl (by decide)
  ⟨h.1, h.2.1⟩

end Practice0922
